import Mathlib

/-!
Shallow embedding of the upload pipeline of the CortexXDR IoC uploader
(`src/xdr_ioc_uploader`): the retry wrapper around remote calls
(`uploader.py`), batching (`_chunks`), the token-bucket rate limiter
(`rate_limiter.py`), the advanced-mode authentication headers
(`api_client.py`), and the multi-tenant orchestrator
(`multi_tenant_uploader.py`), together with theorems settling the
specification claims about them.

Python floats that hold token counts and elapsed seconds are modelled as
rationals; machine integers do not overflow in any modelled quantity, so
plain `Nat` is used for counts and HTTP statuses.  Remote I/O is modelled
by passing in the outcome of each request explicitly.
-/

namespace XdrIoc

/-! ## Retry wrapper (`uploader.py`) -/

/-- Classification of one failed remote-call attempt as seen by
`_should_retry` in `uploader.py`: a `requests.HTTPError` carrying the
status of its response when `exc.response` is not `None`, or any other
exception (`requests.ConnectionError`, `requests.Timeout`, ...), which the
predicate inspects only through `isinstance`. -/
inductive CallError where
  | httpError (status : Option Nat)
  | otherError (msg : String)
deriving DecidableEq

/-- Decidable equality for `Except`, so that concrete retry and dispatch
outcomes can be settled by `decide`. -/
instance instDecEqExcept {ε α : Type} [DecidableEq ε] [DecidableEq α] :
    DecidableEq (Except ε α) := fun x y =>
  match x, y with
  | .ok a, .ok b => decidable_of_iff (a = b) (by simp)
  | .error a, .error b => decidable_of_iff (a = b) (by simp)
  | .ok _, .error _ => isFalse (by simp)
  | .error _, .ok _ => isFalse (by simp)

/-- Embedding of `_should_retry` (uploader.py, lines 123-127): retry exactly
when the exception is a `requests.HTTPError` whose response is present and
whose status code is 429 or lies in `[500, 600)`; every other exception —
including connectivity and timeout errors, which are not `HTTPError`s —
reports `False`. -/
def shouldRetry : CallError → Bool
  | .httpError (some status) =>
      status == 429 || (decide (500 ≤ status) && decide (status < 600))
  | .httpError none => false
  | .otherError _ => false

/-- Embedding of tenacity `wait_exponential(multiplier=1, min=1, max=30)` as
configured on `Uploader._insert_csv` / `_insert_jsons`: the wait (in whole
seconds — all values produced by this configuration are integral) before
the retry that follows failed attempt `k` is
`max(max(0, min), min(multiplier * exp_base ** (attempt_number - 1), max))`
with `exp_base = 2`. -/
def backoffWait (k : Nat) : Nat :=
  max (max 0 1) (min (1 * 2 ^ (k - 1)) 30)

/-- Embedding of the tenacity retry loop
(`retry_if_exception(_should_retry)`, `reraise=True`) around a remote call:
`call k` is the outcome of attempt number `k`; `remaining` is the number of
further attempts the `stop_after_attempt` bound still allows.  On success
the result is returned; on a non-retryable error, or once the attempt
budget is exhausted, the last error is re-raised unchanged.  The second
component of the result is the number of the attempt on which the loop
stopped, i.e. the total number of attempts made. -/
def retryGo (call : Nat → Except CallError α) :
    Nat → Nat → Except CallError α × Nat
  | attemptNo, 0 =>
      match call attemptNo with
      | .ok a => (.ok a, attemptNo)
      | .error e => (.error e, attemptNo)
  | attemptNo, remaining + 1 =>
      match call attemptNo with
      | .ok a => (.ok a, attemptNo)
      | .error e =>
          if shouldRetry e then retryGo call (attemptNo + 1) remaining
          else (.error e, attemptNo)

/-- Embedding of one decorated remote call (`Uploader._insert_csv` /
`_insert_jsons`): `stop_after_attempt(5)` means attempt numbers start at 1
and at most 4 retries may follow the first attempt. -/
def retryCall (call : Nat → Except CallError α) : Except CallError α × Nat :=
  retryGo call 1 4

/-! ## Batching (`_chunks`, uploader.py) -/

/-- Recursion worker for `chunks`, structurally recursive on a fuel bound
so that it reduces inside the kernel; the fuel strictly dominates the list
length at every call site reached from `chunks`. -/
def chunksF : Nat → List α → Nat → List (List α)
  | _, [], _ => []
  | _, _ :: _, 0 => []
  | 0, _ :: _, _ + 1 => []
  | fuel + 1, x :: xs, k + 1 => (x :: xs.take k) :: chunksF fuel (xs.drop k) (k + 1)

/-- Embedding of `_chunks` (uploader.py, lines 118-120): the consecutive
slices `seq[i : i + size]` for `i = 0, size, 2*size, ...`.  A `size` of 0
makes the Python `range` raise `ValueError` and is outside every claim;
it is modelled as producing no chunks. -/
def chunks (seq : List α) (size : Nat) : List (List α) :=
  chunksF seq.length seq size

/-! ## Wire responses and per-target commit accounting (`uploader.py`) -/

/-- Structured per-row problem reported by the remote API inside an
`errors` / `validation_errors` array, e.g. `{"row": 1, "reason": "bad type"}`. -/
structure RowError where
  row : Nat
  reason : String
deriving DecidableEq

/-- Decoded JSON response body of one `insert_csv` / `insert_jsons` request,
keeping exactly the keys the source inspects: `reply` (the explicit success
marker, compared with `is True`), and the optional `errors` and
`validation_errors` arrays. -/
structure ApiResponse where
  replyval : Option Bool
  errorsKey : Option (List RowError)
  validationErrorsKey : Option (List RowError)
deriving DecidableEq

/-- Python truthiness of an optional JSON list: a missing key (`None`) and
an empty list are both falsy. -/
def truthyList : Option (List RowError) → Option (List RowError)
  | some (x :: xs) => some (x :: xs)
  | _ => none

/-- Embedding of the idiom `d.get("errors") or d.get("validation_errors") or []`
used throughout `uploader.py` and `multi_tenant_uploader.py`: the first
truthy operand wins, and a present-but-empty `errors` list falls through to
`validation_errors`. -/
def pyErrorChain (a b : Option (List RowError)) : List RowError :=
  match truthyList a with
  | some l => l
  | none =>
    match truthyList b with
    | some l => l
    | none => []

/-- Return value of `Uploader.commit_csv` / `commit_json`:
`{"succeeded": ..., "failed": ..., "errors": ...}`. -/
structure UploadResult where
  succeeded : Nat
  failed : Nat
  errors : List RowError
deriving DecidableEq

/-- Embedding of the batch loop of `Uploader.commit_csv` (uploader.py,
lines 61-87).  `replies i` is the decoded response of the commit request
for batch number `i` (counted from 0).  If `reply.get("reply") is True` the
whole batch is counted as succeeded, otherwise the whole batch is counted
as failed and, when an `errors` or `validation_errors` key is present, the
list `reply.get("errors") or reply.get("validation_errors") or []` is
appended to the accumulated error list. -/
def commitLoop (replies : Nat → ApiResponse) :
    Nat → Nat → Nat → List RowError → List (List α) → UploadResult
  | _, s, f, errs, [] => ⟨s, f, errs⟩
  | i, s, f, errs, batch :: rest =>
    let reply := replies i
    if reply.replyval = some true then
      commitLoop replies (i + 1) (s + batch.length) f errs rest
    else
      let newErrs :=
        if reply.errorsKey.isSome || reply.validationErrorsKey.isSome then
          pyErrorChain reply.errorsKey reply.validationErrorsKey
        else []
      commitLoop replies (i + 1) s (f + batch.length) (errs ++ newErrs) rest

/-- Embedding of `Uploader.commit_csv`: chunk the rows, then run the batch
loop with all accumulators starting at zero. -/
def commit_csv (replies : Nat → ApiResponse) (rows : List α) (batchSize : Nat) :
    UploadResult :=
  commitLoop replies 0 0 0 [] (chunks rows batchSize)

/-- Sum of the sizes of the batches (from batch index `i` on) whose reply
carries `"reply": true` — the rows `commit_csv` counts as succeeded. -/
def succTotal (replies : Nat → ApiResponse) : Nat → List (List α) → Nat
  | _, [] => 0
  | i, batch :: rest =>
    (if (replies i).replyval = some true then batch.length else 0) +
      succTotal replies (i + 1) rest

/-- Sum of the sizes of the batches (from batch index `i` on) whose reply
does not carry `"reply": true` — the rows `commit_csv` counts as failed. -/
def failTotal (replies : Nat → ApiResponse) : Nat → List (List α) → Nat
  | _, [] => 0
  | i, batch :: rest =>
    (if (replies i).replyval = some true then 0 else batch.length) +
      failTotal replies (i + 1) rest

/-! ## Token bucket (`rate_limiter.py`) -/

/-- Embedding of the refill step at the top of each `TokenBucket.consume`
loop iteration: `self.tokens = min(self.capacity, self.tokens + elapsed * self.rate)`. -/
def refill (rate cap tokens elapsed : ℚ) : ℚ :=
  min cap (tokens + elapsed * rate)

/-- Embedding of the `TokenBucket.consume` loop (rate_limiter.py, lines
15-28) driven by the elapsed wall-clock time observed at each iteration:
refill, then either deduct `n` tokens and return the new stored count, or
sleep and loop.  A run that exhausts the supplied list of elapsed times
without the exit condition ever holding returns `none` (the call has not
returned within that many iterations). -/
def consumeRun (rate cap n : ℚ) : ℚ → List ℚ → Option ℚ
  | _, [] => none
  | tokens, e :: es =>
    let t := refill rate cap tokens e
    if n ≤ t then some (t - n) else consumeRun rate cap n t es

/-- Every observation point of the stored token count during one
`consume` call: the value right after each refill, and the value right
after the final deduction (when the call returns). -/
def consumeTrace (rate cap n : ℚ) : ℚ → List ℚ → List ℚ
  | _, [] => []
  | tokens, e :: es =>
    let t := refill rate cap tokens e
    if n ≤ t then [t, t - n] else t :: consumeTrace rate cap n t es

/-! ## Per-tenant results and the multi-tenant orchestrator
(`multi_tenant_uploader.py`) -/

/-- Embedding of the dataclass `TenantUploadResult`, with the `None`
defaults already normalised to `[]` by `__post_init__`. -/
structure TenantUploadResult where
  tenant_name : String
  success : Bool
  total_rows : Nat
  succeeded : Nat
  failed : Nat
  errors : List RowError
  validation_errors : List RowError
  error_message : Option String
deriving DecidableEq

/-- Embedding of the dataclass `MultiTenantUploadResult`. -/
structure MultiTenantUploadResult where
  tenant_results : List TenantUploadResult
  total_tenants : Nat
  successful_tenants : Nat
  failed_tenants : Nat
  total_rows : Nat
deriving DecidableEq

/-- Embedding of the property `MultiTenantUploadResult.overall_success`:
`self.failed_tenants == 0`. -/
def overall_success (r : MultiTenantUploadResult) : Bool :=
  r.failed_tenants == 0

/-- Embedding of the property `MultiTenantUploadResult.partial_success`:
`self.successful_tenants > 0 and self.failed_tenants > 0`. -/
def partial_success (r : MultiTenantUploadResult) : Bool :=
  decide (0 < r.successful_tenants) && decide (0 < r.failed_tenants)

/-- Embedding of `MultiTenantUploader._build_multi_tenant_result`:
`successful_tenants = sum(1 for r in results if r.success)` and
`failed_tenants = len(results) - successful_tenants`. -/
def build_multi_tenant_result (results : List TenantUploadResult)
    (total_rows : Nat) : MultiTenantUploadResult :=
  ⟨results, results.length,
    (results.filter (fun r => r.success)).length,
    results.length - (results.filter (fun r => r.success)).length,
    total_rows⟩

/-- One configured tenant together with the outcomes of the remote calls
the pipeline may issue on its behalf (the network is modelled by passing
those outcomes in): the validate-phase response, the commit-phase
responses per batch number, and the authentication-probe response.  An
`Except.error msg` models an exception whose `str(e)` is `msg`, raised
before the corresponding phase produced a result. -/
structure TenantSpec where
  name : String
  validateOutcome : Except String ApiResponse
  commitOutcome : Except String (Nat → ApiResponse)
  authOutcome : Except String ApiResponse

/-- Embedding of `MultiTenantUploader._validate_tenant`: issue one
validate-only request; read `validation.get("errors") or
validation.get("validation_errors") or []`; succeed iff that list is
empty.  Any exception is caught and converted into a failed result whose
`error_message` is `str(e)`. -/
def validate_tenant (rowCount : Nat) (t : TenantSpec) : TenantUploadResult :=
  match t.validateOutcome with
  | .error msg => ⟨t.name, false, rowCount, 0, 0, [], [], some msg⟩
  | .ok validation =>
    let errors := pyErrorChain validation.errorsKey validation.validationErrorsKey
    ⟨t.name, errors.isEmpty, rowCount, 0, 0, [], errors, none⟩

/-- Embedding of `MultiTenantUploader._validate_all`: run
`_validate_tenant` for every tenant (the thread pool joins on all of them
before aggregating; completion order does not affect the aggregate
counts), then build the consolidated result. -/
def validate_all (rowCount : Nat) (tenants : List TenantSpec) :
    MultiTenantUploadResult :=
  build_multi_tenant_result (tenants.map (validate_tenant rowCount)) rowCount

/-- Embedding of `MultiTenantUploader._upload_tenant`: run the batched
commit for one tenant; `success = failed == 0`; the error list is
`reply.get("errors") or reply.get("failed_rows") or []`, which for the
dict built by `commit_csv` is exactly its `errors` entry.  Any exception —
modelled as raised before the first commit request — is caught and
converted into a failed result carrying `str(e)`. -/
def upload_tenant (rows : List α) (batchSize : Nat) (t : TenantSpec) :
    TenantUploadResult :=
  match t.commitOutcome with
  | .error msg => ⟨t.name, false, rows.length, 0, 0, [], [], some msg⟩
  | .ok replies =>
    let reply := commit_csv replies rows batchSize
    ⟨t.name, reply.failed == 0, rows.length, reply.succeeded, reply.failed,
      reply.errors, [], none⟩

/-- Number of commit requests `_upload_tenant` issues for one tenant whose
commit phase runs to completion: one per batch. -/
def commitCallsPerTenant (rows : List α) (batchSize : Nat) (t : TenantSpec) : Nat :=
  match t.commitOutcome with
  | .error _ => 0
  | .ok _ => (chunks rows batchSize).length

/-- Embedding of `MultiTenantUploader.upload_all` (multi_tenant_uploader.py,
lines 111-156): first run the validate phase against every tenant; if the
consolidated validation result is not an overall success, return it
immediately — the commit phase is never started for any tenant.  Otherwise
run `_upload_tenant` for every tenant and aggregate.  The second component
counts the commit requests issued across all tenants. -/
def upload_all (rows : List α) (tenants : List TenantSpec) (batchSize : Nat) :
    MultiTenantUploadResult × Nat :=
  let validation := validate_all rows.length tenants
  if overall_success validation then
    (build_multi_tenant_result (tenants.map (upload_tenant rows batchSize)) rows.length,
      (tenants.map (commitCallsPerTenant rows batchSize)).sum)
  else
    (validation, 0)

/-- Embedding of `MultiTenantUploader._test_auth_tenant`: probe
authentication for one tenant; success iff the probe returned; any
exception is caught and converted into a failed result carrying `str(e)`. -/
def test_auth_tenant (t : TenantSpec) : TenantUploadResult :=
  match t.authOutcome with
  | .ok _ => ⟨t.name, true, 0, 0, 0, [], [], none⟩
  | .error msg => ⟨t.name, false, 0, 0, 0, [], [], some msg⟩

/-- Embedding of `MultiTenantUploader.test_auth_all`: probe every tenant
(joining on all per-tenant tasks), then aggregate with `total_rows = 0`. -/
def test_auth_all (tenants : List TenantSpec) : MultiTenantUploadResult :=
  build_multi_tenant_result (tenants.map test_auth_tenant) 0

/-! ## Concrete scenarios from the specification's testable properties -/

/-- A clean remote response: `{"reply": true}`, no error arrays. -/
def okResponse : ApiResponse := ⟨some true, none, none⟩

/-- The structured validation error of the multi-target gate scenario:
`{"row": 1, "reason": "bad type"}`. -/
def badTypeError : RowError := ⟨1, "bad type"⟩

/-- Target A of the upload-gate scenario: its validate response carries
`validation_errors = [{"row": 1, "reason": "bad type"}]`. -/
def gateTenantA : TenantSpec :=
  ⟨"A", .ok ⟨none, none, some [badTypeError]⟩, .ok (fun _ => okResponse), .ok okResponse⟩

/-- Target B of the upload-gate scenario: its validate response carries no
errors. -/
def gateTenantB : TenantSpec :=
  ⟨"B", .ok okResponse, .ok (fun _ => okResponse), .ok okResponse⟩

/-- The dataset of the upload-gate scenario (two indicator rows; only the
row count is observable in the modelled results). -/
def gateRows : List Unit := [Unit.unit, Unit.unit]

/-- Target A of the authentication-probe scenario: the probe succeeds. -/
def authTenantA : TenantSpec :=
  ⟨"A", .ok okResponse, .ok (fun _ => okResponse), .ok okResponse⟩

/-- Target B of the authentication-probe scenario: the probe raises an
exception whose `str(e)` is `"boom"`. -/
def authTenantB : TenantSpec :=
  ⟨"B", .ok okResponse, .ok (fun _ => okResponse), .error "boom"⟩

/-- Target C of the authentication-probe scenario: the probe succeeds. -/
def authTenantC : TenantSpec :=
  ⟨"C", .ok okResponse, .ok (fun _ => okResponse), .ok okResponse⟩

/-- A remote call that always fails with a connectivity/timeout exception
(`requests.ConnectionError` / `requests.Timeout` are not `HTTPError`s). -/
def connTimeoutCall : Nat → Except CallError Unit :=
  fun _ => .error (.otherError "connection timed out")

/-! ## Attribute lookup and call binding for the CLI entry points
(`cli.py` against `multi_tenant_uploader.py`) -/

/-- Errors Python raises while dispatching a method call, before the
method body runs. -/
inductive PyCallError where
  | attributeError
  | typeError
deriving DecidableEq

/-- Method table of the class `MultiTenantUploader`, transcribed from
`multi_tenant_uploader.py`: each public or private method with its
parameter names after `self`, in order.  No method named `validate_all`
exists, and `upload_all` has no `validate_first` parameter and no
`**kwargs`. -/
def mtuMethods : List (String × List String) :=
  [("__init__", ["settings", "max_workers"]),
   ("_validate_all", ["rows", "mode", "tenants"]),
   ("upload_all", ["rows", "mode", "batch_size", "tenant_names"]),
   ("test_auth_all", ["tenant_names"]),
   ("_validate_tenant", ["tenant", "rows", "mode"]),
   ("_upload_tenant", ["tenant", "rows", "mode", "batch_size"]),
   ("_test_auth_tenant", ["tenant"]),
   ("_build_multi_tenant_result", ["results", "total_rows"]),
   ("print_summary", ["result"])]

/-- Embedding of Python attribute lookup followed by call binding on an
instance whose class has the given method table: a missing attribute
raises `AttributeError`; a keyword argument that does not name a free
parameter (or positional arguments beyond the parameter list) raises
`TypeError`.  Both happen before the method body runs. -/
def callMethod (methods : List (String × List String)) (name : String)
    (nPositional : Nat) (kwargs : List String) : Except PyCallError Unit :=
  match methods.lookup name with
  | none => .error .attributeError
  | some params =>
    if nPositional ≤ params.length
        && kwargs.all (fun k =>
          params.contains k && !((params.take nPositional).contains k)) then
      .ok ()
    else
      .error .typeError

/-- The call the `validate-multi` CLI command makes (cli.py, line 842):
`uploader.validate_all(rows, mode, tenant_names)` — three positional
arguments, no keywords. -/
def validate_multi_dispatch : Except PyCallError Unit :=
  callMethod mtuMethods "validate_all" 3 []

/-- The call the `upload-multi` CLI command makes (cli.py, line 912):
`uploader.upload_all(rows, mode, batch_size, tenant_names,
validate_first=not skip_validation)` — four positional arguments plus the
keyword `validate_first`. -/
def upload_multi_dispatch : Except PyCallError Unit :=
  callMethod mtuMethods "upload_all" 4 ["validate_first"]

/-- Embedding of the `try: ... except Exception:` wrapper of both CLI
commands: a dispatch error is caught, the command reports failure and
raises `typer.Exit(code=1)`; a successful dispatch proceeds into the
command body (exit code 0 stands for reaching it). -/
def cliExitCode : Except PyCallError Unit → Nat
  | .error _ => 1
  | .ok _ => 0

/-! ## Advanced-mode authentication headers (`api_client.py`) -/

/-- UTF-8 encoding of one character, as `str.encode("utf-8")` produces it. -/
def charUtf8 (c : Char) : List Nat :=
  let n := c.toNat
  if n < 128 then [n]
  else if n < 2048 then [192 + n / 64, 128 + n % 64]
  else if n < 65536 then [224 + n / 4096, 128 + n / 64 % 64, 128 + n % 64]
  else [240 + n / 262144, 128 + n / 4096 % 64, 128 + n / 64 % 64, 128 + n % 64]

/-- UTF-8 encoding of a string as a byte list. -/
def utf8Bytes (s : String) : List Nat :=
  s.data.flatMap charUtf8

/-- Truncation to a 32-bit word. -/
def w32 (x : Nat) : Nat := x % 2 ^ 32

/-- Right rotation of a 32-bit word by `n` places. -/
def rotateR32 (n x : Nat) : Nat := w32 (x >>> n ||| x <<< (32 - n))

/-- SHA-256 upper-case sigma 0 (on the working variable `a`). -/
def sumA (x : Nat) : Nat := rotateR32 2 x ^^^ rotateR32 13 x ^^^ rotateR32 22 x

/-- SHA-256 upper-case sigma 1 (on the working variable `e`). -/
def sumE (x : Nat) : Nat := rotateR32 6 x ^^^ rotateR32 11 x ^^^ rotateR32 25 x

/-- SHA-256 lower-case sigma 0 (message schedule). -/
def sigSched0 (x : Nat) : Nat := rotateR32 7 x ^^^ rotateR32 18 x ^^^ x >>> 3

/-- SHA-256 lower-case sigma 1 (message schedule). -/
def sigSched1 (x : Nat) : Nat := rotateR32 17 x ^^^ rotateR32 19 x ^^^ x >>> 10

/-- SHA-256 choice function, with the complement written as xor against the
all-ones 32-bit word. -/
def chooseF (x y z : Nat) : Nat := x &&& y ^^^ (x ^^^ 4294967295) &&& z

/-- SHA-256 majority function. -/
def majorityF (x y z : Nat) : Nat := x &&& y ^^^ x &&& z ^^^ y &&& z

/-- SHA-256 round constants (FIPS 180-4, written in decimal). -/
def k256 : List Nat :=
  [1116352408, 1899447441, 3049323471, 3921009573, 961987163, 1508970993,
   2453635748, 2870763221, 3624381080, 310598401, 607225278, 1426881987,
   1925078388, 2162078206, 2614888103, 3248222580, 3835390401, 4022224774,
   264347078, 604807628, 770255983, 1249150122, 1555081692, 1996064986,
   2554220882, 2821834349, 2952996808, 3210313671, 3336571891, 3584528711,
   113926993, 338241895, 666307205, 773529912, 1294757372, 1396182291,
   1695183700, 1986661051, 2177026350, 2456956037, 2730485921, 2820302411,
   3259730800, 3345764771, 3516065817, 3600352804, 4094571909, 275423344,
   430227734, 506948616, 659060556, 883997877, 958139571, 1322822218,
   1537002063, 1747873779, 1955562222, 2024104815, 2227730452, 2361852424,
   2428436474, 2756734187, 3204031479, 3329325298]

/-- SHA-256 initial hash value (FIPS 180-4, written in decimal). -/
def h256init : List Nat :=
  [1779033703, 3144134277, 1013904242, 2773480762,
   1359893119, 2600822924, 528734635, 1541459225]

/-- Append the next word of the SHA-256 message schedule. -/
def scheduleStep (ws : List Nat) : List Nat :=
  ws ++ [w32 (sigSched1 (ws.getD (ws.length - 2) 0) + ws.getD (ws.length - 7) 0 +
    sigSched0 (ws.getD (ws.length - 15) 0) + ws.getD (ws.length - 16) 0)]

/-- One SHA-256 compression round on the eight working variables. -/
def sha256Round (st : List Nat) (kw : Nat × Nat) : List Nat :=
  match st with
  | [a, b, c, d, e, f, g, h] =>
    let t1 := w32 (h + sumE e + chooseF e f g + kw.1 + kw.2)
    let t2 := w32 (sumA a + majorityF a b c)
    [w32 (t1 + t2), a, b, c, w32 (d + t1), e, f, g]
  | other => other

/-- Big-endian bytes of a number, fixed width. -/
def bytesBE (numBytes n : Nat) : List Nat :=
  (List.range numBytes).map (fun i => n >>> (8 * (numBytes - 1 - i)) % 256)

/-- A 32-bit word from four big-endian bytes. -/
def wordOfBytes (bs : List Nat) : Nat :=
  bs.foldl (fun acc byte => acc * 256 + byte) 0

/-- SHA-256 padding: the message, a `0x80` byte, zero bytes up to 56 mod
64, then the bit length as eight big-endian bytes. -/
def padMessage (msg : List Nat) : List Nat :=
  msg ++ [128] ++ List.replicate ((64 + 56 - (msg.length + 1) % 64) % 64) 0 ++
    bytesBE 8 (8 * msg.length)

/-- SHA-256 compression of one 64-byte block into the running hash. -/
def compressBlock (h : List Nat) (block : List Nat) : List Nat :=
  let ws := scheduleStep^[48] ((chunks block 4).map wordOfBytes)
  let st := (k256.zip ws).foldl sha256Round h
  (h.zip st).map (fun p => w32 (p.1 + p.2))

/-- SHA-256 digest (32 bytes) of a byte list. -/
def sha256 (msg : List Nat) : List Nat :=
  ((chunks (padMessage msg) 64).foldl compressBlock h256init).flatMap (bytesBE 4)

/-- Lower-case hex digit. -/
def hexDigit (n : Nat) : Char :=
  if n < 10 then Char.ofNat (48 + n) else Char.ofNat (87 + n)

/-- Lower-case hex string of a byte list, as `hexdigest()` renders it. -/
def toHexString (bytes : List Nat) : String :=
  String.mk (bytes.flatMap (fun b => [hexDigit (b / 16), hexDigit (b % 16)]))

/-- Hex SHA-256 digest of a string's UTF-8 encoding:
`hashlib.sha256(s.encode("utf-8")).hexdigest()`. -/
def sha256HexOf (s : String) : String :=
  toHexString (sha256 (utf8Bytes s))

/-- Alphabet the nonce is drawn from: `string.ascii_letters + string.digits`. -/
def nonceAlphabet : List Char :=
  "abcdefghijklmnopqrstuvwxyzABCDEFGHIJKLMNOPQRSTUVWXYZ0123456789".data

/-- Embedding of the nonce generation in `_advanced_headers`:
`''.join(secrets.choice(alphabet) for _ in range(64))`, with the secure
random source modelled as an arbitrary choice function `pick`. -/
def genNonce (pick : Nat → Fin 62) : String :=
  String.mk ((List.range 64).map (fun i => nonceAlphabet.getD (pick i).val 'a'))

/-- Embedding of `XdrApiClient._advanced_headers` (api_client.py, lines
28-47), with the two nondeterministic inputs — the random nonce choices
and the current UTC clock reading in milliseconds — passed in explicitly:
`auth_string = f"{api_key}{nonce}{timestamp}"`,
`signature = sha256(auth_string.encode("utf-8")).hexdigest()`, and the
five headers in source order. -/
def advanced_headers (apiKeyId apiKey : String) (pick : Nat → Fin 62)
    (nowMs : Nat) : List (String × String) :=
  let nonce := genNonce pick
  let timestamp := toString nowMs
  let signature := sha256HexOf (apiKey ++ nonce ++ timestamp)
  [("Authorization", signature),
   ("x-xdr-auth-id", apiKeyId),
   ("x-xdr-timestamp", timestamp),
   ("x-xdr-nonce", nonce),
   ("Content-Type", "application/json")]

/-! ## Helper lemmas about `chunks` -/

theorem chunksF_congr :
    ∀ (f1 : Nat) (seq : List α) (f2 k : Nat), seq.length ≤ f1 → seq.length ≤ f2 →
      chunksF f1 seq k = chunksF f2 seq k := by
  intro f1
  induction f1 with
  | zero =>
    intro seq f2 k h1 _
    have hseq : seq = [] := List.eq_nil_of_length_eq_zero (Nat.le_zero.mp h1)
    subst hseq
    cases f2 <;> cases k <;> rfl
  | succ f1 ih =>
    intro seq f2 k h1 h2
    cases seq with
    | nil => cases f2 <;> cases k <;> rfl
    | cons x xs =>
      cases k with
      | zero => cases f2 <;> rfl
      | succ k =>
        cases f2 with
        | zero => simp at h2
        | succ f2 =>
          simp only [chunksF, List.cons.injEq, true_and]
          apply ih
          · simp only [List.length_drop]
            simp only [List.length_cons] at h1
            omega
          · simp only [List.length_drop]
            simp only [List.length_cons] at h2
            omega

theorem chunks_nil (k : Nat) : chunks ([] : List α) k = [] := by
  cases k <;> rfl

theorem chunks_cons (x : α) (xs : List α) (k : Nat) :
    chunks (x :: xs) (k + 1) = (x :: xs.take k) :: chunks (xs.drop k) (k + 1) := by
  show chunksF (xs.length + 1) (x :: xs) (k + 1) = _
  simp only [chunksF, chunks, List.cons.injEq, true_and]
  apply chunksF_congr
  · simp only [List.length_drop]; omega
  · exact le_refl _

theorem chunks_flatten_aux (k : Nat) :
    ∀ (n : Nat) (seq : List α), seq.length ≤ n → (chunks seq (k + 1)).flatten = seq := by
  intro n
  induction n with
  | zero =>
    intro seq h
    have hseq : seq = [] := List.eq_nil_of_length_eq_zero (Nat.le_zero.mp h)
    simp [hseq, chunks_nil]
  | succ n ih =>
    intro seq h
    cases seq with
    | nil => simp [chunks_nil]
    | cons x xs =>
      rw [chunks_cons]
      have hle : (xs.drop k).length ≤ n := by
        simp only [List.length_drop]
        simp only [List.length_cons] at h
        omega
      simp only [List.flatten_cons, ih _ hle, List.cons_append]
      simp [List.take_append_drop]

/-- Concatenating the chunks gives back the original list: the slices are
consecutive and preserve order. -/
theorem chunks_flatten (seq : List α) (k : Nat) :
    (chunks seq (k + 1)).flatten = seq :=
  chunks_flatten_aux k seq.length seq le_rfl

theorem chunks_mem_length_aux (k : Nat) :
    ∀ (n : Nat) (seq : List α), seq.length ≤ n →
      ∀ c ∈ chunks seq (k + 1), 0 < c.length ∧ c.length ≤ k + 1 := by
  intro n
  induction n with
  | zero =>
    intro seq h c hc
    have hseq : seq = [] := List.eq_nil_of_length_eq_zero (Nat.le_zero.mp h)
    subst hseq
    simp [chunks_nil] at hc
  | succ n ih =>
    intro seq h c hc
    cases seq with
    | nil => simp [chunks_nil] at hc
    | cons x xs =>
      rw [chunks_cons] at hc
      rcases List.mem_cons.mp hc with hc | hc
      · subst hc
        refine ⟨by simp, ?_⟩
        simp only [List.length_cons, List.length_take]
        omega
      · refine ih (xs.drop k) ?_ c hc
        simp only [List.length_drop]
        simp only [List.length_cons] at h
        omega

/-- Every chunk is nonempty and no chunk exceeds the batch size. -/
theorem chunks_mem_length (seq : List α) (k : Nat) (c : List α)
    (hc : c ∈ chunks seq (k + 1)) : 0 < c.length ∧ c.length ≤ k + 1 :=
  chunks_mem_length_aux k seq.length seq le_rfl c hc

theorem chunks_dropLast_aux (k : Nat) :
    ∀ (n : Nat) (seq : List α), seq.length ≤ n →
      ∀ c ∈ (chunks seq (k + 1)).dropLast, c.length = k + 1 := by
  intro n
  induction n with
  | zero =>
    intro seq h c hc
    have hseq : seq = [] := List.eq_nil_of_length_eq_zero (Nat.le_zero.mp h)
    subst hseq
    simp [chunks_nil] at hc
  | succ n ih =>
    intro seq h c hc
    cases seq with
    | nil => simp [chunks_nil] at hc
    | cons x xs =>
      rw [chunks_cons] at hc
      by_cases hxs : xs.drop k = []
      · rw [hxs, chunks_nil] at hc
        simp at hc
      · obtain ⟨z, zs, hzz⟩ : ∃ z zs, chunks (xs.drop k) (k + 1) = z :: zs := by
          cases hd : xs.drop k with
          | nil => exact absurd hd hxs
          | cons y ys => exact ⟨y :: ys.take k, chunks (ys.drop k) (k + 1), chunks_cons y ys k⟩
        rw [hzz, List.dropLast_cons₂] at hc
        rcases List.mem_cons.mp hc with hc | hc
        · subst hc
          have hk : k < xs.length := by
            by_contra hk
            exact hxs (List.drop_eq_nil_of_le (Nat.le_of_not_lt hk))
          simp only [List.length_cons, List.length_take]
          omega
        · refine ih (xs.drop k) ?_ c ?_
          · simp only [List.length_drop]
            simp only [List.length_cons] at h
            omega
          · rw [hzz]
            exact hc

/-- Every chunk except possibly the last has length exactly the batch size. -/
theorem chunks_dropLast_length (seq : List α) (k : Nat) (c : List α)
    (hc : c ∈ (chunks seq (k + 1)).dropLast) : c.length = k + 1 :=
  chunks_dropLast_aux k seq.length seq le_rfl c hc

theorem chunks_replicate_step (a : α) (m s : Nat) (hs : 1 ≤ s) (h : s ≤ m) :
    chunks (List.replicate m a) s =
      List.replicate s a :: chunks (List.replicate (m - s) a) s := by
  obtain ⟨k, rfl⟩ : ∃ k, s = k + 1 := ⟨s - 1, by omega⟩
  obtain ⟨m', rfl⟩ : ∃ m', m = m' + 1 := ⟨m - 1, by omega⟩
  rw [List.replicate_succ, chunks_cons, List.take_replicate, List.drop_replicate]
  have hmin : min k m' = k := by omega
  have hsub : m' - k = m' + 1 - (k + 1) := by omega
  rw [hmin, hsub, ← List.replicate_succ]

theorem chunks_replicate_last (a : α) (m s : Nat) (h1 : 1 ≤ m) (h2 : m ≤ s) :
    chunks (List.replicate m a) s = [List.replicate m a] := by
  obtain ⟨k, rfl⟩ : ∃ k, s = k + 1 := ⟨s - 1, by omega⟩
  obtain ⟨m', rfl⟩ : ∃ m', m = m' + 1 := ⟨m - 1, by omega⟩
  rw [List.replicate_succ, chunks_cons, List.take_replicate, List.drop_replicate]
  have hmin : min k m' = m' := by omega
  have hsub : m' - k = 0 := by omega
  rw [hmin, hsub, ← List.replicate_succ]
  simp [chunks_nil]

/-- The literal batching example: 2500 rows with batch size 1000 split into
chunks of sizes 1000, 1000, 500. -/
theorem chunks_2500 :
    (chunks (List.replicate 2500 Unit.unit) 1000).map List.length =
      [1000, 1000, 500] := by
  rw [chunks_replicate_step Unit.unit 2500 1000 (by norm_num) (by norm_num)]
  have e1 : (2500 : Nat) - 1000 = 1500 := by norm_num
  rw [e1, chunks_replicate_step Unit.unit 1500 1000 (by norm_num) (by norm_num)]
  have e2 : (1500 : Nat) - 1000 = 500 := by norm_num
  rw [e2, chunks_replicate_last Unit.unit 500 1000 (by norm_num) (by norm_num)]
  simp only [List.map_cons, List.map_nil, List.length_replicate]

/-! ## Helper lemmas about the commit loop -/

theorem commitLoop_succeeded (replies : Nat → ApiResponse) :
    ∀ (batches : List (List α)) (i s f : Nat) (errs : List RowError),
      (commitLoop replies i s f errs batches).succeeded =
        s + succTotal replies i batches := by
  intro batches
  induction batches with
  | nil => intro i s f errs; simp [commitLoop, succTotal]
  | cons batch rest ih =>
    intro i s f errs
    by_cases h : (replies i).replyval = some true <;>
      simp [commitLoop, succTotal, h, ih] <;> omega

theorem commitLoop_failed (replies : Nat → ApiResponse) :
    ∀ (batches : List (List α)) (i s f : Nat) (errs : List RowError),
      (commitLoop replies i s f errs batches).failed =
        f + failTotal replies i batches := by
  intro batches
  induction batches with
  | nil => intro i s f errs; simp [commitLoop, failTotal]
  | cons batch rest ih =>
    intro i s f errs
    by_cases h : (replies i).replyval = some true <;>
      simp [commitLoop, failTotal, h, ih] <;> omega

theorem succTotal_add_failTotal (replies : Nat → ApiResponse) :
    ∀ (batches : List (List α)) (i : Nat),
      succTotal replies i batches + failTotal replies i batches =
        (batches.map List.length).sum := by
  intro batches
  induction batches with
  | nil => intro i; simp [succTotal, failTotal]
  | cons batch rest ih =>
    intro i
    have hih := ih (i + 1)
    by_cases h : (replies i).replyval = some true <;>
      simp [succTotal, failTotal, h] <;> omega

/-! ## Claim theorems -/

/-- C4 — Batching and commit accounting: for every row list and batch size
`b ≥ 1`, `commit_csv` splits the rows into consecutive batches of size `b`
(the last possibly smaller) preserving original order; 2500 rows with batch
size 1000 give commit calls of sizes `[1000, 1000, 500]`; the outcome
counts each batch entirely as succeeded or entirely as failed, and
`succeeded + failed` equals the number of rows submitted. -/
theorem batching_and_commit_accounting (rows : List α) (b : Nat) (hb : 1 ≤ b)
    (replies : Nat → ApiResponse) :
    (chunks rows b).flatten = rows
    ∧ (∀ c ∈ chunks rows b, 0 < c.length ∧ c.length ≤ b)
    ∧ (∀ c ∈ (chunks rows b).dropLast, c.length = b)
    ∧ (chunks (List.replicate 2500 Unit.unit) 1000).map List.length =
        [1000, 1000, 500]
    ∧ (commit_csv replies rows b).succeeded = succTotal replies 0 (chunks rows b)
    ∧ (commit_csv replies rows b).failed = failTotal replies 0 (chunks rows b)
    ∧ (commit_csv replies rows b).succeeded + (commit_csv replies rows b).failed
        = rows.length := by
  obtain ⟨k, rfl⟩ : ∃ k, b = k + 1 := ⟨b - 1, by omega⟩
  have hs : (commit_csv replies rows (k + 1)).succeeded =
      succTotal replies 0 (chunks rows (k + 1)) := by
    have := commitLoop_succeeded replies (chunks rows (k + 1)) 0 0 0 []
    simpa [commit_csv] using this
  have hf : (commit_csv replies rows (k + 1)).failed =
      failTotal replies 0 (chunks rows (k + 1)) := by
    have := commitLoop_failed replies (chunks rows (k + 1)) 0 0 0 []
    simpa [commit_csv] using this
  refine ⟨chunks_flatten rows k, fun c hc => chunks_mem_length rows k c hc,
    fun c hc => chunks_dropLast_length rows k c hc, chunks_2500, hs, hf, ?_⟩
  rw [hs, hf, succTotal_add_failTotal replies (chunks rows (k + 1)) 0]
  rw [← List.length_flatten, chunks_flatten rows k]

/-- Witness for `batching_and_commit_accounting` at a concrete input: five
rows, batch size 2, first batch succeeding and the remaining batches
failing. -/
theorem batching_and_commit_accounting_witness :
    (1 ≤ 2) ∧
    ((chunks (List.replicate 5 Unit.unit) 2).flatten = List.replicate 5 Unit.unit
    ∧ (∀ c ∈ chunks (List.replicate 5 Unit.unit) 2, 0 < c.length ∧ c.length ≤ 2)
    ∧ (∀ c ∈ (chunks (List.replicate 5 Unit.unit) 2).dropLast, c.length = 2)
    ∧ (chunks (List.replicate 2500 Unit.unit) 1000).map List.length =
        [1000, 1000, 500]
    ∧ (commit_csv (fun i => if i = 0 then okResponse else ⟨none, none, none⟩)
        (List.replicate 5 Unit.unit) 2).succeeded =
        succTotal (fun i => if i = 0 then okResponse else ⟨none, none, none⟩) 0
          (chunks (List.replicate 5 Unit.unit) 2)
    ∧ (commit_csv (fun i => if i = 0 then okResponse else ⟨none, none, none⟩)
        (List.replicate 5 Unit.unit) 2).failed =
        failTotal (fun i => if i = 0 then okResponse else ⟨none, none, none⟩) 0
          (chunks (List.replicate 5 Unit.unit) 2)
    ∧ (commit_csv (fun i => if i = 0 then okResponse else ⟨none, none, none⟩)
        (List.replicate 5 Unit.unit) 2).succeeded +
      (commit_csv (fun i => if i = 0 then okResponse else ⟨none, none, none⟩)
        (List.replicate 5 Unit.unit) 2).failed = (List.replicate 5 Unit.unit).length) :=
  ⟨by norm_num,
    batching_and_commit_accounting (List.replicate 5 Unit.unit) 2 (by norm_num)
      (fun i => if i = 0 then okResponse else ⟨none, none, none⟩)⟩

/-- C6 — AggregateResult invariants: for every `MultiTenantUploadResult`
built by `_build_multi_tenant_result`, `overall_success` holds exactly when
`failed_tenants = 0`, `partial_success` holds exactly when
`0 < successful_tenants < total_tenants`, and the two are never both true. -/
theorem aggregate_result_invariants (results : List TenantUploadResult)
    (total_rows : Nat) :
    (overall_success (build_multi_tenant_result results total_rows) = true ↔
      (build_multi_tenant_result results total_rows).failed_tenants = 0)
    ∧ (partial_success (build_multi_tenant_result results total_rows) = true ↔
        0 < (build_multi_tenant_result results total_rows).successful_tenants ∧
          (build_multi_tenant_result results total_rows).successful_tenants <
            (build_multi_tenant_result results total_rows).total_tenants)
    ∧ (overall_success (build_multi_tenant_result results total_rows) &&
        partial_success (build_multi_tenant_result results total_rows)) = false := by
  have hnotboth : ¬(overall_success (build_multi_tenant_result results total_rows) = true ∧
      partial_success (build_multi_tenant_result results total_rows) = true) := by
    simp only [overall_success, partial_success, build_multi_tenant_result,
      beq_iff_eq, Bool.and_eq_true, decide_eq_true_eq]
    omega
  have hle : (results.filter (fun r => r.success)).length ≤ results.length :=
    List.length_filter_le _ _
  refine ⟨?_, ?_, ?_⟩
  · simp only [overall_success, partial_success, build_multi_tenant_result,
      beq_iff_eq, Bool.and_eq_true, decide_eq_true_eq]
  · simp only [overall_success, partial_success, build_multi_tenant_result,
      beq_iff_eq, Bool.and_eq_true, decide_eq_true_eq]
    omega
  · cases h1 : overall_success (build_multi_tenant_result results total_rows)
    · simp
    · cases h2 : partial_success (build_multi_tenant_result results total_rows)
      · simp
      · exact absurd ⟨h1, h2⟩ hnotboth

/-- C9 — The multi-target CLI entry points are inconsistent with the
orchestrator: `validate-multi` calls `uploader.validate_all(rows, mode,
tenant_names)` but no method of that name exists (only `_validate_all`), so
dispatch raises `AttributeError`, the command reports failure and exits
with code 1 before validating any tenant; `upload-multi` passes the
keyword `validate_first`, which `upload_all` does not accept, so dispatch
raises `TypeError` before any validation or commit call. -/
theorem cli_multi_dispatch_mismatch :
    mtuMethods.lookup "validate_all" = none
    ∧ validate_multi_dispatch = .error .attributeError
    ∧ cliExitCode validate_multi_dispatch = 1
    ∧ (mtuMethods.lookup "upload_all").isSome = true
    ∧ ((mtuMethods.lookup "upload_all").getD []).contains "validate_first" = false
    ∧ upload_multi_dispatch = .error .typeError
    ∧ cliExitCode upload_multi_dispatch = 1 := by
  decide

/-! ## Helper lemmas about the retry loop -/

theorem retryGo_attempts (call : Nat → Except CallError α) :
    ∀ (r a : Nat), a ≤ (retryGo call a r).2 ∧ (retryGo call a r).2 ≤ a + r := by
  intro r
  induction r with
  | zero =>
    intro a
    cases h : call a <;> simp [retryGo, h]
  | succ r ih =>
    intro a
    cases h : call a with
    | ok v => simp [retryGo, h]
    | error e =>
      by_cases hr : shouldRetry e
      · have hih := ih (a + 1)
        simp only [retryGo, h, hr, if_true]
        omega
      · simp [retryGo, h, hr]

theorem retryGo_error_noRetry (call : Nat → Except CallError α) (a r : Nat)
    (e : CallError) (h : call a = .error e) (hr : shouldRetry e = false) :
    retryGo call a r = (.error e, a) := by
  cases r with
  | zero => simp [retryGo, h]
  | succ r => simp [retryGo, h, hr]

/-- C3 — Retry policy: a wrapped call is retried exactly on HTTP 429 or
5xx (never on another 4xx); at most 5 attempts are made in total; the
backoff starts at 1 second, doubles each attempt and is capped at 30
seconds; failing with 500 three times then succeeding gives success with 4
attempts; failing with 404 gives exactly 1 attempt; after 5 retryable
failures the last error is re-raised unchanged. -/
theorem retry_policy_spec :
    (∀ s : Nat, shouldRetry (.httpError (some s)) = true ↔
      s = 429 ∨ (500 ≤ s ∧ s < 600))
    ∧ (∀ call : Nat → Except CallError Unit,
        1 ≤ (retryCall call).2 ∧ (retryCall call).2 ≤ 5)
    ∧ backoffWait 1 = 1
    ∧ (∀ k : Nat, backoffWait (k + 2) = min (2 * backoffWait (k + 1)) 30)
    ∧ (∀ k : Nat, backoffWait (k + 1) ≤ 30)
    ∧ retryCall (fun k => if k ≤ 3 then .error (.httpError (some 500)) else .ok ()) =
        (.ok (), 4)
    ∧ retryCall (fun _ => (.error (.httpError (some 404)) : Except CallError Unit)) =
        (.error (.httpError (some 404)), 1)
    ∧ retryCall (fun _ => (.error (.httpError (some 500)) : Except CallError Unit)) =
        (.error (.httpError (some 500)), 5)
    ∧ retryCall (fun k => (.error (.httpError (some (500 + k))) : Except CallError Unit)) =
        (.error (.httpError (some 505)), 5) := by
  refine ⟨?_, ?_, rfl, ?_, ?_, by decide, by decide, by decide, by decide⟩
  · intro s
    simp [shouldRetry]
  · intro call
    have hb := retryGo_attempts call 4 1
    exact ⟨hb.1, by simpa [retryCall] using hb.2⟩
  · intro k
    simp only [backoffWait, one_mul]
    have e1 : k + 2 - 1 = k + 1 := by omega
    have e2 : k + 1 - 1 = k := by omega
    rw [e1, e2, pow_succ]
    have h1 : 1 ≤ 2 ^ k := Nat.one_le_two_pow
    omega
  · intro k
    simp only [backoffWait, one_mul]
    omega

/-- C7 counterexample — the claim that connectivity/timeout failures are
retried up to the maximum attempt count is false at a concrete input: a
call that always fails with a connection timeout stops after 1 attempt,
not 5. -/
theorem network_retry_counterexample :
    (retryCall connTimeoutCall).2 = 1 ∧ (retryCall connTimeoutCall).2 ≠ 5 := by
  decide

/-- C7 amended — connectivity/timeout errors are not `requests.HTTPError`s,
so `_should_retry` classifies them as non-retryable and the wrapper
re-raises them immediately after exactly one attempt (no retries). -/
theorem network_error_no_retry :
    (∀ msg, shouldRetry (.otherError msg) = false)
    ∧ ∀ (msg : String) (call : Nat → Except CallError Unit),
        call 1 = .error (.otherError msg) →
          retryCall call = (.error (.otherError msg), 1) := by
  refine ⟨fun msg => rfl, fun msg call h => ?_⟩
  exact retryGo_error_noRetry call 1 4 _ h rfl

/-- Witness for `network_error_no_retry` at the concrete always-timing-out
call. -/
theorem network_error_no_retry_witness :
    retryCall connTimeoutCall = (.error (.otherError "connection timed out"), 1) :=
  network_error_no_retry.2 "connection timed out" connTimeoutCall rfl

/-- C1 counterexample — in the literal gate scenario the claim that both
per-target results report validation failure is false: target B validated
cleanly and its `TenantUploadResult` has `success = true`. -/
theorem upload_gate_counterexample :
    ¬ ∀ r ∈ (upload_all gateRows [gateTenantA, gateTenantB] 1000).1.tenant_results,
        r.success = false := by
  decide

/-- C1 amended — Multi-target upload gate: the validate phase runs for
every target, and if its consolidated result is not an overall success the
orchestrator returns it with zero commit calls for any target;
in the literal scenario (A reports `validation_errors = [{"row": 1,
"reason": "bad type"}]`, B reports none) zero commit calls are made,
`overall_success = false`, A's result reports validation failure, and B's
result reports validation success. -/
theorem upload_gate_amended :
    (∀ (α : Type) (rows : List α) (tenants : List TenantSpec) (b : Nat),
      overall_success (validate_all rows.length tenants) = false →
        upload_all rows tenants b = (validate_all rows.length tenants, 0))
    ∧ (∀ (α : Type) (rows : List α) (tenants : List TenantSpec) (b : Nat),
        (upload_all rows tenants b).1.tenant_results.length = tenants.length)
    ∧ (upload_all gateRows [gateTenantA, gateTenantB] 1000).2 = 0
    ∧ overall_success (upload_all gateRows [gateTenantA, gateTenantB] 1000).1 = false
    ∧ (upload_all gateRows [gateTenantA, gateTenantB] 1000).1.tenant_results =
        [⟨"A", false, 2, 0, 0, [], [badTypeError], none⟩,
         ⟨"B", true, 2, 0, 0, [], [], none⟩] := by
  refine ⟨?_, ?_, by decide, by decide, by decide⟩
  · intro α rows tenants b h
    simp [upload_all, h]
  · intro α rows tenants b
    by_cases h : overall_success (validate_all rows.length tenants) = true
    · simp [upload_all, h, build_multi_tenant_result]
    · have h' : overall_success (validate_all rows.length tenants) = false := by
        revert h
        cases overall_success (validate_all rows.length tenants) <;> simp
      have hfst : upload_all rows tenants b = (validate_all rows.length tenants, 0) := by
        simp [upload_all, h']
      rw [hfst]
      simp [validate_all, build_multi_tenant_result]

/-- Witness for `upload_gate_amended` at the literal gate scenario. -/
theorem upload_gate_amended_witness :
    upload_all gateRows [gateTenantA, gateTenantB] 1000 =
      (validate_all gateRows.length [gateTenantA, gateTenantB], 0) :=
  upload_gate_amended.1 Unit gateRows [gateTenantA, gateTenantB] 1000 (by decide)

/-- C2 — Multi-target failure isolation: every per-target task outcome is
converted into a `TenantUploadResult` (an exception becomes a failed
result carrying `str(e)`, never propagating), the aggregate contains one
result per tenant, and in the literal scenario `[A, B, C]` with B's probe
raising, the aggregate has exactly 3 results — 2 successes and 1 failure
with a populated error message — with `overall_success = false` and
`partial_success = true`. -/
theorem auth_failure_isolation :
    (∀ tenants : List TenantSpec,
      (test_auth_all tenants).tenant_results.length = tenants.length
      ∧ (test_auth_all tenants).total_tenants = tenants.length)
    ∧ (∀ (t : TenantSpec) (msg : String), t.authOutcome = .error msg →
        test_auth_tenant t = ⟨t.name, false, 0, 0, 0, [], [], some msg⟩)
    ∧ (test_auth_all [authTenantA, authTenantB, authTenantC]).tenant_results.length = 3
    ∧ (test_auth_all [authTenantA, authTenantB, authTenantC]).successful_tenants = 2
    ∧ (test_auth_all [authTenantA, authTenantB, authTenantC]).failed_tenants = 1
    ∧ overall_success (test_auth_all [authTenantA, authTenantB, authTenantC]) = false
    ∧ partial_success (test_auth_all [authTenantA, authTenantB, authTenantC]) = true
    ∧ ((test_auth_all [authTenantA, authTenantB, authTenantC]).tenant_results.filter
        (fun r => !r.success)).map (fun r => r.error_message) = [some "boom"] := by
  refine ⟨?_, ?_, by decide, by decide, by decide, by decide, by decide, by decide⟩
  · intro tenants
    constructor <;> simp [test_auth_all, build_multi_tenant_result]
  · intro t msg h
    simp [test_auth_tenant, h]

/-- Witness for `auth_failure_isolation` at tenant B, whose probe raises
an exception with message `"boom"`. -/
theorem auth_failure_isolation_witness :
    test_auth_tenant authTenantB = ⟨"B", false, 0, 0, 0, [], [], some "boom"⟩ :=
  auth_failure_isolation.2.1 authTenantB "boom" rfl

/-! ## Helper lemmas about the token bucket -/

theorem consumeTrace_bounds (rate cap n : ℚ) (hrate : 0 ≤ rate) (hcap : 0 ≤ cap)
    (hn : 0 ≤ n) :
    ∀ (es : List ℚ) (tokens : ℚ), 0 ≤ tokens → tokens ≤ cap →
      (∀ e ∈ es, 0 ≤ e) →
      ∀ t ∈ consumeTrace rate cap n tokens es, 0 ≤ t ∧ t ≤ cap := by
  intro es
  induction es with
  | nil =>
    intro tokens _ _ _ t ht
    simp [consumeTrace] at ht
  | cons e es ih =>
    intro tokens htok0 htokc hes t ht
    have he : 0 ≤ e := hes e (List.mem_cons_self e es)
    have hre0 : 0 ≤ refill rate cap tokens e :=
      le_min hcap (add_nonneg htok0 (mul_nonneg he hrate))
    have hrec : refill rate cap tokens e ≤ cap := min_le_left _ _
    simp only [consumeTrace] at ht
    by_cases hcond : n ≤ refill rate cap tokens e
    · rw [if_pos hcond] at ht
      simp only [List.mem_cons, List.not_mem_nil, or_false] at ht
      rcases ht with rfl | rfl
      · exact ⟨hre0, hrec⟩
      · exact ⟨sub_nonneg.mpr hcond, le_trans (sub_le_self _ hn) hrec⟩
    · rw [if_neg hcond] at ht
      rcases List.mem_cons.mp ht with ht | ht
      · exact ht ▸ ⟨hre0, hrec⟩
      · exact ih (refill rate cap tokens e) hre0 hrec
          (fun e2 he2 => hes e2 (List.mem_cons_of_mem e he2)) t ht

theorem consumeRun_zero (rate cap tokens e : ℚ) (es2 : List ℚ) (hrate : 0 ≤ rate)
    (hcap : 0 ≤ cap) (htok0 : 0 ≤ tokens) (htokc : tokens ≤ cap) (he : 0 ≤ e) :
    consumeRun rate cap 0 tokens (e :: es2) = some (refill rate cap tokens e)
    ∧ tokens ≤ refill rate cap tokens e := by
  have h0 : 0 ≤ refill rate cap tokens e :=
    le_min hcap (add_nonneg htok0 (mul_nonneg he hrate))
  constructor
  · simp only [consumeRun]
    rw [if_pos h0, sub_zero]
  · exact le_min htokc (le_add_of_nonneg_right (mul_nonneg he hrate))

theorem consumeRun_none_of_gt_cap (rate cap n : ℚ) (h : cap < n) :
    ∀ (es : List ℚ) (t0 : ℚ), consumeRun rate cap n t0 es = none := by
  intro es
  induction es with
  | nil => intro t0; rfl
  | cons e es ih =>
    intro t0
    have hnle : ¬ n ≤ refill rate cap t0 e := by
      have hle : refill rate cap t0 e ≤ cap := min_le_left _ _
      linarith
    simp only [consumeRun]
    rw [if_neg hnle]
    exact ih _

/-- C8 — Token bucket invariant: for a bucket with rate `r > 0` and
capacity `c ≥ 0`, along any `consume(n)` call with `n ≥ 0` started from a
stored count in `[0, c]` and driven by nonnegative elapsed times, the
stored token count lies in `[0, c]` at every observation point (after
every refill and after the final deduction); and `consume(0)` returns on
its very first loop iteration without sleeping and without reducing the
stored count. -/
theorem token_bucket_invariant (rate cap n tokens : ℚ) (es : List ℚ)
    (hrate : 0 < rate) (hcap : 0 ≤ cap) (hn : 0 ≤ n)
    (htok0 : 0 ≤ tokens) (htokc : tokens ≤ cap)
    (hes : ∀ e ∈ es, 0 ≤ e) :
    (∀ t ∈ consumeTrace rate cap n tokens es, 0 ≤ t ∧ t ≤ cap)
    ∧ (∀ (e : ℚ) (es2 : List ℚ), 0 ≤ e →
        consumeRun rate cap 0 tokens (e :: es2) = some (refill rate cap tokens e)
        ∧ tokens ≤ refill rate cap tokens e) :=
  ⟨consumeTrace_bounds rate cap n (le_of_lt hrate) hcap hn es tokens htok0 htokc hes,
   fun e es2 he =>
    consumeRun_zero rate cap tokens e es2 (le_of_lt hrate) hcap htok0 htokc he⟩

/-- Witness for `token_bucket_invariant` at a concrete bucket: rate 2,
capacity 3, consuming 1 token from a full bucket after 1 elapsed second. -/
theorem token_bucket_invariant_witness :
    (∀ t ∈ consumeTrace 2 3 1 3 [1], 0 ≤ t ∧ t ≤ 3)
    ∧ (∀ (e : ℚ) (es2 : List ℚ), 0 ≤ e →
        consumeRun 2 3 0 3 (e :: es2) = some (refill 2 3 3 e)
        ∧ 3 ≤ refill 2 3 3 e) :=
  token_bucket_invariant 2 3 1 3 [1] (by norm_num) (by norm_num) (by norm_num)
    (by norm_num) (by norm_num)
    (by intro e he; rw [List.mem_singleton] at he; rw [he]; norm_num)

/-- C10 — Termination of `TokenBucket.consume`: with rate `r > 0`, a
request for `n ≤ capacity` tokens returns within two loop iterations once
the slept time `(n - tokens) / rate` has elapsed; a request for
`n > capacity` never returns, because every refill caps the stored count
at `capacity`, so the exit condition `tokens >= n` can never hold. -/
theorem consume_termination (rate cap n tokens e0 : ℚ) (hrate : 0 < rate) :
    (n ≤ cap → consumeRun rate cap n tokens
        [e0, (n - refill rate cap tokens e0) / rate] ≠ none)
    ∧ (cap < n → ∀ (es : List ℚ) (t0 : ℚ), consumeRun rate cap n t0 es = none) := by
  constructor
  · intro hncap
    by_cases h1 : n ≤ refill rate cap tokens e0
    · simp [consumeRun, h1]
    · simp only [consumeRun]
      rw [if_neg h1]
      have key : refill rate cap (refill rate cap tokens e0)
          ((n - refill rate cap tokens e0) / rate) = n := by
        show min cap (refill rate cap tokens e0 +
          (n - refill rate cap tokens e0) / rate * rate) = n
        rw [div_mul_cancel₀ _ (ne_of_gt hrate)]
        have harith : refill rate cap tokens e0 +
            (n - refill rate cap tokens e0) = n := by ring
        rw [harith]
        exact min_eq_right hncap
      simp [consumeRun, key]
  · intro h es t0
    exact consumeRun_none_of_gt_cap rate cap n h es t0

/-- Witness for `consume_termination`: a request within capacity returns,
and a request beyond capacity never does. -/
theorem consume_termination_witness :
    consumeRun 1 2 1 0 [0, (1 - refill 1 2 0 0) / 1] ≠ none
    ∧ consumeRun 1 2 3 0 [5, 5] = none :=
  ⟨(consume_termination 1 2 1 0 0 (by norm_num)).1 (by norm_num),
   (consume_termination 1 2 3 0 0 (by norm_num)).2 (by norm_num) [5, 5] 0⟩

/-! ## Helper lemmas about the nonce and headers -/

theorem nonceAlphabet_alnum :
    ∀ j : Fin 62, (nonceAlphabet.getD j.val 'a').isAlphanum = true := by
  decide

theorem genNonce_length (pick : Nat → Fin 62) : (genNonce pick).length = 64 := by
  show ((List.range 64).map (fun i => nonceAlphabet.getD (pick i).val 'a')).length = 64
  simp

theorem genNonce_alnum (pick : Nat → Fin 62) :
    ∀ c ∈ (genNonce pick).data, c.isAlphanum = true := by
  intro c hc
  rcases List.mem_map.mp hc with ⟨i, _, rfl⟩
  exact nonceAlphabet_alnum (pick i)

set_option maxRecDepth 4000 in
/-- C5 — Advanced-mode authentication headers: `_advanced_headers` emits
exactly the five headers `{Authorization: signature, x-xdr-auth-id: key
id, x-xdr-timestamp: timestamp, x-xdr-nonce: nonce, Content-Type:
application/json}`, with the signature the hex SHA-256 of
`key ++ nonce ++ timestamp`, the nonce 64 alphanumeric characters, the
timestamp the decimal milliseconds-since-epoch string; and at the
reference vector (key `"k"`, nonce 64 × `"n"`, timestamp
`"1700000000000"`) the signature equals the precomputed digest. -/
theorem advanced_headers_spec :
    (∀ (apiKeyId apiKey : String) (pick : Nat → Fin 62) (nowMs : Nat),
      (advanced_headers apiKeyId apiKey pick nowMs).lookup "Authorization" =
        some (sha256HexOf (apiKey ++ genNonce pick ++ toString nowMs))
      ∧ (advanced_headers apiKeyId apiKey pick nowMs).lookup "x-xdr-auth-id" =
          some apiKeyId
      ∧ (advanced_headers apiKeyId apiKey pick nowMs).lookup "x-xdr-timestamp" =
          some (toString nowMs)
      ∧ (advanced_headers apiKeyId apiKey pick nowMs).lookup "x-xdr-nonce" =
          some (genNonce pick)
      ∧ (advanced_headers apiKeyId apiKey pick nowMs).lookup "Content-Type" =
          some "application/json"
      ∧ (advanced_headers apiKeyId apiKey pick nowMs).length = 5
      ∧ (genNonce pick).length = 64
      ∧ (genNonce pick).data.all (fun c => c.isAlphanum) = true)
    ∧ sha256HexOf ("k" ++ String.mk (List.replicate 64 'n') ++ "1700000000000") =
        "f62f3c9c3e1f8b12dba5193f9c23d98b57e282ca8f81cea103b994433a2816fe" := by
  constructor
  · intro apiKeyId apiKey pick nowMs
    refine ⟨rfl, rfl, rfl, rfl, rfl, rfl, genNonce_length pick, ?_⟩
    rw [List.all_eq_true]
    exact genNonce_alnum pick
  · decide

end XdrIoc
